import Mathlib

/-
  Verification development for the faclon-sensor-api repository.

  The repository is a Node.js service with five files:
    - src/models/Sensor.js        (Mongoose schema `sensorSchema`, model `Sensor`)
    - src/controllers/sensorController.js  (zod `ingestSchema`, `ingestReading`, `getLatestReading`)
    - src/routes/sensorRoutes.js  (routing glue)
    - src/config/mqtt.js          (`setupMQTT`: subscription and message handler)
    - src/index.js                (bootstrap)

  Shallow embedding conventions:
    - JavaScript numbers are modelled as `JNum`: a rational for every finite
      double, plus NaN and the two infinities.  No claim depends on binary
      floating-point rounding; only validation, comparison and field plumbing
      occur in the code.
    - JSON objects (request bodies, MQTT payloads) are association lists
      `Body`; property access `data.key` is `lookup data "key"` returning
      `Option JSValue` (`none` models JavaScript `undefined`).  Composite JSON
      values (nested objects, arrays) are not modelled; no code path under
      verification inspects them.
    - MQTT topics are embedded as their list of `/`-separated segments, so the
      handler code `topic.split("/")` is the identity on the embedding and
      `parts[2]` is `topic[2]?`.
    - The MongoDB collection is a list of `StoredReading` in persistence
      order; the generated document id is the insertion counter (list length
      at insert time) and `createdAt` is the server clock `now` passed to the
      operation.  `findOne({deviceId}).sort({timestamp: -1}).limit(1)` is
      modelled as a scan keeping the record with the maximum timestamp,
      earliest-persisted record kept on ties: the query gives no secondary
      sort key, and the compound index on (deviceId asc, timestamp desc)
      stores duplicate keys in record-id (insertion) order, so the first
      record returned among equal timestamps is the earliest-persisted one.
    - Wall-clock time (`Date.now()`) is an explicit parameter `now`.
-/

namespace Faclon

/-- Model of a JavaScript number: finite value, NaN, or an infinity. -/
inductive JNum where
  | num (q : ℚ)
  | nan
  | inf
  | negInf
deriving DecidableEq

/-- Model of a JSON / JavaScript value as far as the service inspects one. -/
inductive JSValue where
  | jnum (n : JNum)
  | jstr (s : String)
  | jbool (b : Bool)
  | jnull
deriving DecidableEq

/-- A JSON object (request body or decoded MQTT payload) as an association list. -/
abbrev Body := List (String × JSValue)

/-- Property access `obj.key`: first binding wins, `none` models `undefined`. -/
def lookup (b : Body) (k : String) : Option JSValue :=
  (b.find? (fun p => p.1 == k)).map (fun p => p.2)

/-- MongoDB comparison rank for numbers: NaN sorts below all other numbers. -/
def jrank : JNum → Nat
  | JNum.nan => 0
  | JNum.negInf => 1
  | JNum.num _ => 2
  | JNum.inf => 3

/-- Strict less-than on stored numbers under MongoDB number ordering. -/
def jlt (a b : JNum) : Bool :=
  match a, b with
  | JNum.num x, JNum.num y => decide (x < y)
  | a, b => decide (jrank a < jrank b)

/-- A persisted sensor document: the schema fields of `sensorSchema` plus the
generated id. `id` is the insertion counter, `createdAt` the server clock at
persistence (schema default `Date.now`). -/
structure StoredReading where
  id : Nat
  deviceId : String
  temperature : JNum
  timestamp : JNum
  createdAt : ℚ
deriving DecidableEq

/-- The persisted collection, in persistence order. -/
abbrev Store := List StoredReading

/-- Mongoose write errors: `CastError` (number cast rejects NaN) versus
schema `ValidationError` (a `required` validator failed). -/
inductive MError where
  | castError (msg : String)
  | validationError (msg : String)
deriving DecidableEq

/-- Models `new Sensor(fields).save()` and `Sensor.create(fields)` against
`sensorSchema`. Casting runs first: Mongoose `castNumber` asserts
`!isNaN(val)`, so a NaN temperature or timestamp raises a `CastError`.  Then
the `required` validators run: `deviceId` must be a present, non-empty string
(Mongoose `checkRequired` for strings demands `v.length > 0`).  The
`temperature` required validator and the `timestamp` default are unreachable
from the two call sites, which always supply a number for both.  On success
the document is appended with id = collection size and `createdAt = now`. -/
def sensorSave (now : ℚ) (store : Store) (deviceId : Option String)
    (temperature timestamp : JNum) : Except MError (StoredReading × Store) :=
  if temperature = JNum.nan ∨ timestamp = JNum.nan then
    Except.error (MError.castError "Cast to Number failed")
  else
    match deviceId with
    | none => Except.error (MError.validationError "deviceId is required")
    | some d =>
      if 0 < d.length then
        let r : StoredReading :=
          { id := store.length, deviceId := d, temperature := temperature,
            timestamp := timestamp, createdAt := now }
        Except.ok (r, store ++ [r])
      else Except.error (MError.validationError "deviceId is required")

/-- Result of a zod field check. -/
abbrev ZField (α : Type) := Except String α

/-- zod `deviceId: z.string().min(1, "deviceId cannot be empty")`.
A missing key fails `z.string()` with the default issue message; a non-string
fails with an invalid-type message (zod default messages abbreviated, no claim
inspects them); `min(1)` demands length at least one. -/
def zDeviceId (b : Body) : ZField String :=
  match lookup b "deviceId" with
  | some (JSValue.jstr s) =>
    if 0 < s.length then Except.ok s
    else Except.error "deviceId cannot be empty"
  | some _ => Except.error "Expected string"
  | none => Except.error "Required"

/-- zod `temperature: z.number({required_error, invalid_type_error})`.
zod computes the parsed type of NaN as `nan`, not `number`, so NaN fails with
the invalid-type message; the infinities have `typeof === "number"` and pass
(no `.finite()` refinement is present in the schema). -/
def zTemperature (b : Body) : ZField JNum :=
  match lookup b "temperature" with
  | some (JSValue.jnum n) =>
    if n = JNum.nan then Except.error "temperature must be a number"
    else Except.ok n
  | some _ => Except.error "temperature must be a number"
  | none => Except.error "temperature is required"

/-- zod `timestamp: z.number().optional().default(() => Date.now())`.
Absent key: the default supplies the current server time. Present key: must
be a number; NaN again parses as type `nan` and fails. -/
def zTimestamp (b : Body) (now : ℚ) : ZField JNum :=
  match lookup b "timestamp" with
  | none => Except.ok (JNum.num now)
  | some (JSValue.jnum n) =>
    if n = JNum.nan then Except.error "Expected number"
    else Except.ok n
  | some _ => Except.error "Expected number"

/-- The typed payload produced by a successful `ingestSchema.parse`.  Unknown
body keys are stripped by `z.object` (default mode): only these three fields
survive validation. -/
structure Validated where
  deviceId : String
  temperature : JNum
  timestamp : JNum
deriving DecidableEq

/-- Issue messages contributed by one field result. -/
def errOf {α : Type} : ZField α → List String
  | Except.ok _ => []
  | Except.error m => [m]

/-- Models `ingestSchema.parse(req.body)`: checks the three schema keys in
declaration order, collecting every issue (zod gathers all issues before
throwing); on success returns the stripped, typed payload. -/
def ingestSchemaParse (now : ℚ) (b : Body) : Except (List String) Validated :=
  match zDeviceId b, zTemperature b, zTimestamp b now with
  | Except.ok d, Except.ok t, Except.ok ts =>
    Except.ok { deviceId := d, temperature := t, timestamp := ts }
  | rd, rt, rts => Except.error (errOf rd ++ errOf rt ++ errOf rts)

/-- Outcome of a controller: an HTTP response, or `next(error)` (no error
middleware is registered, so Express answers 500). -/
inductive RestResult where
  | response (status : Nat) (success : Bool) (error : Option String)
      (data : Option StoredReading)
  | nextError (msg : String)
deriving DecidableEq

/-- HTTP status of a controller outcome. -/
def RestResult.statusCode : RestResult → Nat
  | RestResult.response st _ _ _ => st
  | RestResult.nextError _ => 500

/-- The `success` flag of a controller outcome. -/
def RestResult.isSuccess : RestResult → Bool
  | RestResult.response _ ok _ _ => ok
  | RestResult.nextError _ => false

/-- The `data` field of a controller outcome. -/
def RestResult.dataOf : RestResult → Option StoredReading
  | RestResult.response _ _ _ d => d
  | RestResult.nextError _ => none

/-- Models `exports.ingestReading`: parse the body with `ingestSchema`, build
and save a `Sensor` document from the three validated fields, answer
201 with the stored document; a `ZodError` answers 400 with the joined issue
messages, a Mongoose `ValidationError` answers 400 with its message, anything
else goes to `next(error)`. Returns the response and the resulting store. -/
def ingestReading (now : ℚ) (store : Store) (body : Body) :
    RestResult × Store :=
  match ingestSchemaParse now body with
  | Except.error msgs =>
    (RestResult.response 400 false (some (String.intercalate ", " msgs)) none,
     store)
  | Except.ok v =>
    match sensorSave now store (some v.deviceId) v.temperature v.timestamp with
    | Except.ok (r, s) => (RestResult.response 201 true none (some r), s)
    | Except.error (MError.validationError m) =>
      (RestResult.response 400 false (some m) none, store)
    | Except.error (MError.castError m) => (RestResult.nextError m, store)

/-- One step of the maximum scan behind the latest-reading query: keep the
incumbent unless the next record has a strictly greater timestamp. -/
def maxStep (acc : Option StoredReading) (r : StoredReading) :
    Option StoredReading :=
  match acc with
  | none => some r
  | some b => if jlt b.timestamp r.timestamp then some r else some b

/-- Models `Sensor.findOne(\x7bdeviceId\x7d).sort(\x7btimestamp: -1\x7d).limit(1)`:
among the documents of the device, the one with the maximum timestamp; on
timestamp ties the earliest-persisted one (index scan order among equal keys,
there is no secondary sort key). `none` when the device has no document. -/
def latestScan (store : Store) (deviceId : String) : Option StoredReading :=
  (store.filter (fun r => r.deviceId == deviceId)).foldl maxStep none

/-- Models `exports.getLatestReading`: 404 with a fixed message when the query
finds nothing, otherwise 200 with the document. -/
def getLatestReading (store : Store) (deviceId : String) : RestResult :=
  match latestScan store deviceId with
  | none =>
    RestResult.response 404 false (some "No readings found for this device")
      none
  | some r => RestResult.response 200 true none (some r)

/-- Least-significant-first accumulation of decimal digits. -/
def natOfDigits (ds : List Char) : Nat :=
  ds.foldl (fun a c => a * 10 + (c.toNat - 48)) 0

/-- Exponent suffix of a JavaScript float literal: `e`/`E`, optional sign,
digits; an ill-formed suffix contributes nothing (parseFloat keeps the longest
valid numeric prefix). -/
def parseExpPart (cs : List Char) : Int :=
  match cs with
  | 'e' :: r =>
    match r with
    | '-' :: t =>
      let ds := t.takeWhile Char.isDigit
      if ds = [] then 0 else -(natOfDigits ds : Int)
    | '+' :: t =>
      let ds := t.takeWhile Char.isDigit
      if ds = [] then 0 else (natOfDigits ds : Int)
    | t =>
      let ds := t.takeWhile Char.isDigit
      if ds = [] then 0 else (natOfDigits ds : Int)
  | 'E' :: r =>
    match r with
    | '-' :: t =>
      let ds := t.takeWhile Char.isDigit
      if ds = [] then 0 else -(natOfDigits ds : Int)
    | '+' :: t =>
      let ds := t.takeWhile Char.isDigit
      if ds = [] then 0 else (natOfDigits ds : Int)
    | t =>
      let ds := t.takeWhile Char.isDigit
      if ds = [] then 0 else (natOfDigits ds : Int)
  | _ => 0

/-- Whitespace skipped by `parseFloat`. -/
def isWs (c : Char) : Bool :=
  c == ' ' || c == '\t' || c == '\n' || c == '\r'

/-- JavaScript `parseFloat` on a string: skip leading whitespace, optional
sign, then either `Infinity` or a decimal mantissa with optional fraction and
exponent; trailing garbage is ignored, and NaN results when no numeric prefix
exists. -/
def parseFloatStr (s : String) : JNum :=
  let cs0 := s.data.dropWhile isWs
  let signNeg : Bool :=
    match cs0 with
    | '-' :: _ => true
    | _ => false
  let cs :=
    match cs0 with
    | '-' :: r => r
    | '+' :: r => r
    | r => r
  if cs.take 8 = "Infinity".data then
    if signNeg then JNum.negInf else JNum.inf
  else
    let intPart := cs.takeWhile Char.isDigit
    let rest := cs.dropWhile Char.isDigit
    let fracPart :=
      match rest with
      | '.' :: r => r.takeWhile Char.isDigit
      | _ => []
    let rest2 :=
      match rest with
      | '.' :: r => r.dropWhile Char.isDigit
      | r => r
    if intPart = [] ∧ fracPart = [] then JNum.nan
    else
      let m : Int := natOfDigits (intPart ++ fracPart)
      let e : Int := parseExpPart rest2
      let numer : Int := (if signNeg then -m else m) * 10 ^ e.toNat
      let denom : Nat := 10 ^ (fracPart.length + (-e).toNat)
      JNum.num (mkRat numer denom)

/-- JavaScript `parseFloat(x)` for the values a payload field can hold: the
argument is first converted to a string, so numbers (NaN and the infinities
included) round-trip to themselves, `undefined`, `null` and booleans give NaN,
and strings are parsed as float literals. -/
def parseFloat (v : Option JSValue) : JNum :=
  match v with
  | none => JNum.nan
  | some (JSValue.jnum n) => n
  | some (JSValue.jstr s) => parseFloatStr s
  | some (JSValue.jbool _) => JNum.nan
  | some JSValue.jnull => JNum.nan

/-- An MQTT topic, embedded as its list of `/`-separated segments. -/
abbrev Topic := List String

/-- MQTT topic-filter matching: `+` matches exactly one segment (the empty
segment included), `#` matches every remainder, any other filter segment
matches only itself. -/
def segsMatch : Topic → Topic → Bool
  | [], [] => true
  | ["#"], _ => true
  | f :: fs, t :: ts => (f == "+" || f == t) && segsMatch fs ts
  | _, _ => false

/-- The filter `setupMQTT` subscribes to on connect:
`iot/sensor/+/temperature`. -/
def mqttFilter : Topic := ["iot", "sensor", "+", "temperature"]

/-- Models the `client.on("message", ...)` handler of `setupMQTT`: device id
is segment 2 of the topic, the payload temperature is coerced with
`parseFloat`, the timestamp is always the current server time, and the
document is written with `Sensor.create`; every error is caught, logged and
the message dropped, leaving the store unchanged. -/
def onMessage (now : ℚ) (store : Store) (topic : Topic) (payload : Body) :
    Store :=
  let deviceId := topic[2]?
  let temp := parseFloat (lookup payload "temperature")
  match sensorSave now store deviceId temp (JNum.num now) with
  | Except.ok (_, s) => s
  | Except.error _ => store

/-- A message published on the bus: the broker delivers it to the handler
exactly when the topic matches the subscribed filter, otherwise the service
never sees it and the store is unchanged. -/
def publish (now : ℚ) (store : Store) (topic : Topic) (payload : Body) :
    Store :=
  if segsMatch mqttFilter topic then onMessage now store topic payload
  else store

/-- Precondition used for the amended claim about temperature validation: the
body's temperature field is not a non-NaN number — it is missing, or holds a
string, boolean or null, or holds NaN.  Infinite numbers do NOT satisfy this
predicate: the zod number check lets them through. -/
def temperatureNotANumber (b : Body) : Prop :=
  match lookup b "temperature" with
  | some (JSValue.jnum n) => n = JNum.nan
  | some _ => True
  | none => True

end Faclon

namespace Faclon

/-- Strict order on stored numbers is irreflexive. -/
theorem jlt_irrefl (a : JNum) : jlt a a = false := by
  cases a <;> simp [jlt]

/-- Strict order on stored numbers is asymmetric. -/
theorem jlt_asymm (a b : JNum) (h : jlt a b = true) : jlt b a = false := by
  cases a <;> cases b <;>
    simp_all [jlt, jrank, decide_eq_true_eq, decide_eq_false_iff_not]
  linarith

/-- The maximum scan yields a record of the scanned list, unless it merely
returns the incumbent. -/
theorem foldl_maxStep_mem (l : List StoredReading) (acc : Option StoredReading)
    (b : StoredReading) (h : l.foldl maxStep acc = some b) :
    acc = some b ∨ b ∈ l := by
  induction l generalizing acc with
  | nil => exact Or.inl h
  | cons r t ih =>
    rcases ih (maxStep acc r) h with h1 | h2
    · cases acc with
      | none =>
        simp [maxStep] at h1
        exact Or.inr (by simp [h1])
      | some a =>
        by_cases hlt : jlt a.timestamp r.timestamp
        · simp [maxStep, hlt] at h1
          exact Or.inr (by simp [h1])
        · simp [maxStep, hlt] at h1
          exact Or.inl (by simp [h1])
    · exact Or.inr (List.mem_cons_of_mem _ h2)

/-- Appending a record whose timestamp strictly dominates every scanned record
makes the scan return that record. -/
theorem foldl_maxStep_last (l : List StoredReading) (R : StoredReading)
    (h : ∀ b ∈ l, jlt b.timestamp R.timestamp = true) :
    (l ++ [R]).foldl maxStep none = some R := by
  rw [List.foldl_append]
  cases hacc : l.foldl maxStep (none : Option StoredReading) with
  | none => simp [maxStep]
  | some b =>
    rcases foldl_maxStep_mem l none b hacc with h1 | h2
    · cases h1
    · simp [maxStep, h b h2]

/-- Successful run of the REST ingest controller: when the body carries a
non-empty string deviceId, a non-NaN number temperature, and either no
timestamp (server time substituted) or a non-NaN number timestamp, the
controller answers 201 and appends exactly the document built from those
fields. -/
theorem ingestReading_ok (now : ℚ) (s : Store) (b : Body) (d : String)
    (v ts : JNum)
    (hd : lookup b "deviceId" = some (JSValue.jstr d)) (hdl : 0 < d.length)
    (hv : lookup b "temperature" = some (JSValue.jnum v)) (hvn : v ≠ JNum.nan)
    (hts : (lookup b "timestamp" = none ∧ ts = JNum.num now) ∨
           (lookup b "timestamp" = some (JSValue.jnum ts) ∧ ts ≠ JNum.nan)) :
    ingestReading now s b
      = (RestResult.response 201 true none
           (some { id := s.length, deviceId := d, temperature := v,
                   timestamp := ts, createdAt := now }),
         s ++ [{ id := s.length, deviceId := d, temperature := v,
                 timestamp := ts, createdAt := now }]) := by
  have htsn : ts ≠ JNum.nan := by
    rcases hts with ⟨_, h⟩ | ⟨_, h⟩
    · subst h; simp
    · exact h
  have h1 : zDeviceId b = Except.ok d := by
    unfold zDeviceId
    rw [hd]
    simp [hdl]
  have h2 : zTemperature b = Except.ok v := by
    unfold zTemperature
    rw [hv]
    simp [hvn]
  have h3 : zTimestamp b now = Except.ok ts := by
    rcases hts with ⟨h, h'⟩ | ⟨h, h'⟩
    · unfold zTimestamp
      rw [h, h']
    · unfold zTimestamp
      rw [h]
      simp [h']
  have hparse : ingestSchemaParse now b
      = Except.ok { deviceId := d, temperature := v, timestamp := ts } := by
    unfold ingestSchemaParse
    rw [h1, h2, h3]
  have hsave : sensorSave now s (some d) v ts
      = Except.ok
          ({ id := s.length, deviceId := d, temperature := v,
             timestamp := ts, createdAt := now },
           s ++ [{ id := s.length, deviceId := d, temperature := v,
                   timestamp := ts, createdAt := now }]) := by
    unfold sensorSave
    rw [if_neg (not_or.mpr ⟨hvn, htsn⟩)]
    show (if 0 < d.length then _ else _) = _
    rw [if_pos hdl]
  unfold ingestReading
  rw [hparse]
  show (match sensorSave now s (some d) v ts with
    | Except.ok (r, s2) => (RestResult.response 201 true none (some r), s2)
    | Except.error (MError.validationError m) =>
      (RestResult.response 400 false (some m) none, s)
    | Except.error (MError.castError m) => (RestResult.nextError m, s)) = _
  rw [hsave]

/-- Filtering by a device id distributes over appending a record of that
device. -/
theorem filter_append_self (s : Store) (R : StoredReading) (d : String)
    (hR : R.deviceId = d) :
    (s ++ [R]).filter (fun r => r.deviceId == d)
      = s.filter (fun r => r.deviceId == d) ++ [R] := by
  rw [List.filter_append]
  simp [hR]

/-- Appending a binding under a different key does not change a lookup. -/
theorem lookup_append_ne (b : Body) (k q : String) (w : JSValue) (h : k ≠ q) :
    lookup (b ++ [(k, w)]) q = lookup b q := by
  have hk : (k == q) = false := beq_eq_false_iff_ne.mpr h
  induction b with
  | nil => simp [lookup, List.find?, hk]
  | cons p t ih =>
    by_cases hp : p.1 == q
    · simp [lookup, List.find?, hp]
    · simpa [lookup, List.find?, hp] using ih

end Faclon

/-- C1 counterexample: the same raw input, deviceId s1 with temperature given
as the string 19.1, is rejected by the REST path (400, nothing stored) yet
accepted by the pub/sub path, which coerces the string with parseFloat and
stores a record: the two intake paths do not share validation semantics. -/
theorem C1_counterexample :
    (Faclon.ingestReading 100 []
      [("deviceId", Faclon.JSValue.jstr "s1"),
       ("temperature", Faclon.JSValue.jstr "19.1")]).1.statusCode = 400 ∧
    (Faclon.ingestReading 100 []
      [("deviceId", Faclon.JSValue.jstr "s1"),
       ("temperature", Faclon.JSValue.jstr "19.1")]).2 = [] ∧
    Faclon.publish 100 [] ["iot", "sensor", "s1", "temperature"]
      [("temperature", Faclon.JSValue.jstr "19.1")]
      = [{ id := 0, deviceId := "s1",
           temperature := Faclon.JNum.num (mkRat 191 10),
           timestamp := Faclon.JNum.num 100, createdAt := 100 }] := by decide

/-- C1 amended: the intake paths agree only on inputs whose temperature is
already a number and which carry no timestamp field: both then store the same
deviceId, temperature and server-time timestamp. They do not share an
ingestion service: the pub/sub handler persists directly, bypassing
ingestSchema, coercing the body temperature with parseFloat and always
substituting the server time for the timestamp. -/
theorem C1_paths_agree_on_plain_numeric_body (now : ℚ) (s : Faclon.Store)
    (d : String) (v : ℚ) (hd : 0 < d.length) :
    Faclon.ingestReading now s
        [("deviceId", Faclon.JSValue.jstr d),
         ("temperature", Faclon.JSValue.jnum (Faclon.JNum.num v))]
      = (Faclon.RestResult.response 201 true none
           (some { id := s.length, deviceId := d,
                   temperature := Faclon.JNum.num v,
                   timestamp := Faclon.JNum.num now, createdAt := now }),
         s ++ [{ id := s.length, deviceId := d,
                 temperature := Faclon.JNum.num v,
                 timestamp := Faclon.JNum.num now, createdAt := now }]) ∧
    Faclon.publish now s ["iot", "sensor", d, "temperature"]
        [("temperature", Faclon.JSValue.jnum (Faclon.JNum.num v))]
      = s ++ [{ id := s.length, deviceId := d,
                temperature := Faclon.JNum.num v,
                timestamp := Faclon.JNum.num now, createdAt := now }] := by
  constructor
  · exact Faclon.ingestReading_ok now s _ d (Faclon.JNum.num v)
      (Faclon.JNum.num now) rfl hd rfl (by simp) (Or.inl ⟨rfl, rfl⟩)
  · have hsave : Faclon.sensorSave now s (some d) (Faclon.JNum.num v)
        (Faclon.JNum.num now)
        = Except.ok
            ({ id := s.length, deviceId := d,
               temperature := Faclon.JNum.num v,
               timestamp := Faclon.JNum.num now, createdAt := now },
             s ++ [{ id := s.length, deviceId := d,
                     temperature := Faclon.JNum.num v,
                     timestamp := Faclon.JNum.num now, createdAt := now }]) := by
      show (if 0 < d.length then _ else _) = _
      rw [if_pos hd]
    show (match Faclon.sensorSave now s (some d) (Faclon.JNum.num v)
        (Faclon.JNum.num now) with
      | Except.ok (_, s2) => s2
      | Except.error _ => s) = _
    rw [hsave]

/-- Closed instance of the amended C1: both paths store the identical record
for deviceId s1 and numeric temperature 19.1. -/
theorem C1_paths_agree_witness :
    Faclon.ingestReading 100 []
        [("deviceId", Faclon.JSValue.jstr "s1"),
         ("temperature", Faclon.JSValue.jnum (Faclon.JNum.num (mkRat 191 10)))]
      = (Faclon.RestResult.response 201 true none
           (some { id := 0, deviceId := "s1",
                   temperature := Faclon.JNum.num (mkRat 191 10),
                   timestamp := Faclon.JNum.num 100, createdAt := 100 }),
         [{ id := 0, deviceId := "s1",
            temperature := Faclon.JNum.num (mkRat 191 10),
            timestamp := Faclon.JNum.num 100, createdAt := 100 }]) ∧
    Faclon.publish 100 [] ["iot", "sensor", "s1", "temperature"]
        [("temperature", Faclon.JSValue.jnum (Faclon.JNum.num (mkRat 191 10)))]
      = [{ id := 0, deviceId := "s1",
           temperature := Faclon.JNum.num (mkRat 191 10),
           timestamp := Faclon.JNum.num 100, createdAt := 100 }] :=
  C1_paths_agree_on_plain_numeric_body 100 [] "s1" (mkRat 191 10) (by decide)

/-- C2 counterexample: a bus message on topic iot/sensor/s2/value with body
carrying value 19.1 does not match the subscribed filter
iot/sensor/+/temperature, so the handler never runs and the store stays
empty: it does not gain a record with deviceId s2. -/
theorem C2_counterexample :
    Faclon.segsMatch Faclon.mqttFilter ["iot", "sensor", "s2", "value"]
        = false ∧
    Faclon.publish 100 [] ["iot", "sensor", "s2", "value"]
        [("value", Faclon.JSValue.jnum (Faclon.JNum.num (mkRat 191 10)))]
      = [] := by decide

/-- C2 amended: the subscription is iot/sensor/+/temperature and the body
field is temperature; a message on topic iot/sensor/d/temperature whose body
temperature is a number v, for non-empty d, makes the store gain exactly one
record with deviceId d, temperature v, and server-assigned timestamp. -/
theorem C2_temperature_topic_ingests (now : ℚ) (s : Faclon.Store) (d : String)
    (v : ℚ) (hd : 0 < d.length) :
    Faclon.publish now s ["iot", "sensor", d, "temperature"]
        [("temperature", Faclon.JSValue.jnum (Faclon.JNum.num v))]
      = s ++ [{ id := s.length, deviceId := d,
                temperature := Faclon.JNum.num v,
                timestamp := Faclon.JNum.num now, createdAt := now }] := by
  have hsave : Faclon.sensorSave now s (some d) (Faclon.JNum.num v)
      (Faclon.JNum.num now)
      = Except.ok
          ({ id := s.length, deviceId := d, temperature := Faclon.JNum.num v,
             timestamp := Faclon.JNum.num now, createdAt := now },
           s ++ [{ id := s.length, deviceId := d,
                   temperature := Faclon.JNum.num v,
                   timestamp := Faclon.JNum.num now, createdAt := now }]) := by
    show (if 0 < d.length then _ else _) = _
    rw [if_pos hd]
  show Faclon.onMessage now s ["iot", "sensor", d, "temperature"]
      [("temperature", Faclon.JSValue.jnum (Faclon.JNum.num v))] = _
  show (match Faclon.sensorSave now s (some d) (Faclon.JNum.num v)
      (Faclon.JNum.num now) with
    | Except.ok (_, s2) => s2
    | Except.error _ => s) = _
  rw [hsave]

/-- Closed instance of the amended C2: the example scenario with device s2
and value 19.1 on the temperature topic. -/
theorem C2_temperature_topic_witness :
    Faclon.publish 100 [] ["iot", "sensor", "s2", "temperature"]
        [("temperature", Faclon.JSValue.jnum (Faclon.JNum.num (mkRat 191 10)))]
      = [{ id := 0, deviceId := "s2",
           temperature := Faclon.JNum.num (mkRat 191 10),
           timestamp := Faclon.JNum.num 100, createdAt := 100 }] :=
  C2_temperature_topic_ingests 100 [] "s2" (mkRat 191 10) (by decide)

/-- C3 counterexample: two readings for device s1 with the same timestamp 5,
persisted at times 10 then 20; the latest-reading query returns the record
with createdAt 10, the EARLIER-persisted one, not the later. -/
theorem C3_counterexample :
    (Faclon.ingestReading 20
      ((Faclon.ingestReading 10 []
        [("deviceId", Faclon.JSValue.jstr "s1"),
         ("temperature", Faclon.JSValue.jnum (Faclon.JNum.num 1)),
         ("timestamp", Faclon.JSValue.jnum (Faclon.JNum.num 5))]).2)
      [("deviceId", Faclon.JSValue.jstr "s1"),
       ("temperature", Faclon.JSValue.jnum (Faclon.JNum.num 2)),
       ("timestamp", Faclon.JSValue.jnum (Faclon.JNum.num 5))]).2
      = [{ id := 0, deviceId := "s1", temperature := Faclon.JNum.num 1,
           timestamp := Faclon.JNum.num 5, createdAt := 10 },
         { id := 1, deviceId := "s1", temperature := Faclon.JNum.num 2,
           timestamp := Faclon.JNum.num 5, createdAt := 20 }] ∧
    Faclon.getLatestReading
      [{ id := 0, deviceId := "s1", temperature := Faclon.JNum.num 1,
         timestamp := Faclon.JNum.num 5, createdAt := 10 },
       { id := 1, deviceId := "s1", temperature := Faclon.JNum.num 2,
         timestamp := Faclon.JNum.num 5, createdAt := 20 }] "s1"
      = Faclon.RestResult.response 200 true none
          (some { id := 0, deviceId := "s1", temperature := Faclon.JNum.num 1,
                  timestamp := Faclon.JNum.num 5, createdAt := 10 }) ∧
    (10 : ℚ) < 20 := by decide

/-- C3 amended: on a timestamp tie between the two stored readings of a
device, the latest-reading query returns the EARLIER-persisted record: the
query sorts on timestamp only, and among equal keys the index scan yields
records in persistence order, so the first one wins. -/
theorem C3_tie_returns_earliest_persisted (s : Faclon.Store) (d : String)
    (r1 r2 : Faclon.StoredReading) (heq : r1.timestamp = r2.timestamp)
    (hf : s.filter (fun r => r.deviceId == d) = [r1, r2]) :
    Faclon.getLatestReading s d
      = Faclon.RestResult.response 200 true none (some r1) := by
  unfold Faclon.getLatestReading Faclon.latestScan
  rw [hf]
  simp [List.foldl, Faclon.maxStep, heq, Faclon.jlt_irrefl]

/-- Closed instance of the amended C3 at a concrete tied store. -/
theorem C3_tie_witness :
    Faclon.getLatestReading
      [{ id := 0, deviceId := "s1", temperature := Faclon.JNum.num 1,
         timestamp := Faclon.JNum.num 5, createdAt := 10 },
       { id := 1, deviceId := "s1", temperature := Faclon.JNum.num 2,
         timestamp := Faclon.JNum.num 5, createdAt := 20 }] "s1"
      = Faclon.RestResult.response 200 true none
          (some { id := 0, deviceId := "s1", temperature := Faclon.JNum.num 1,
                  timestamp := Faclon.JNum.num 5, createdAt := 10 }) :=
  C3_tie_returns_earliest_persisted _ "s1"
    { id := 0, deviceId := "s1", temperature := Faclon.JNum.num 1,
      timestamp := Faclon.JNum.num 5, createdAt := 10 }
    { id := 1, deviceId := "s1", temperature := Faclon.JNum.num 2,
      timestamp := Faclon.JNum.num 5, createdAt := 20 }
    rfl (by decide)

/-- C4 counterexample: on the pub/sub path a client-supplied timestamp is not
preserved: a message carrying timestamp 5 is stored with the server time 100
as its timestamp. -/
theorem C4_counterexample :
    Faclon.publish 100 [] ["iot", "sensor", "s1", "temperature"]
        [("temperature", Faclon.JSValue.jnum (Faclon.JNum.num 2)),
         ("timestamp", Faclon.JSValue.jnum (Faclon.JNum.num 5))]
      = [{ id := 0, deviceId := "s1", temperature := Faclon.JNum.num 2,
           timestamp := Faclon.JNum.num 100, createdAt := 100 }] ∧
    Faclon.JNum.num (100 : ℚ) ≠ Faclon.JNum.num 5 := by decide

/-- C4 amended: on the REST path a valid input is stored with exactly the
supplied deviceId, temperature and timestamp (server time substituted only
when the timestamp is omitted), and a subsequent latest query returns that
record provided its timestamp strictly exceeds that of every reading already
stored for the device; the pub/sub path instead always stores the server
time as timestamp. -/
theorem C4_rest_ingest_then_latest (now : ℚ) (s : Faclon.Store) (b : Faclon.Body)
    (d : String) (v ts : Faclon.JNum)
    (hd : Faclon.lookup b "deviceId" = some (Faclon.JSValue.jstr d))
    (hdl : 0 < d.length)
    (hv : Faclon.lookup b "temperature" = some (Faclon.JSValue.jnum v))
    (hvn : v ≠ Faclon.JNum.nan)
    (hts : (Faclon.lookup b "timestamp" = none ∧ ts = Faclon.JNum.num now) ∨
           (Faclon.lookup b "timestamp" = some (Faclon.JSValue.jnum ts) ∧
             ts ≠ Faclon.JNum.nan))
    (hmax : ∀ r ∈ s, r.deviceId = d → Faclon.jlt r.timestamp ts = true) :
    Faclon.ingestReading now s b
      = (Faclon.RestResult.response 201 true none
           (some { id := s.length, deviceId := d, temperature := v,
                   timestamp := ts, createdAt := now }),
         s ++ [{ id := s.length, deviceId := d, temperature := v,
                 timestamp := ts, createdAt := now }]) ∧
    Faclon.getLatestReading
        (s ++ [{ id := s.length, deviceId := d, temperature := v,
                 timestamp := ts, createdAt := now }]) d
      = Faclon.RestResult.response 200 true none
          (some { id := s.length, deviceId := d, temperature := v,
                  timestamp := ts, createdAt := now }) := by
  refine ⟨Faclon.ingestReading_ok now s b d v ts hd hdl hv hvn hts, ?_⟩
  unfold Faclon.getLatestReading Faclon.latestScan
  rw [Faclon.filter_append_self s _ d rfl, Faclon.foldl_maxStep_last]
  intro x hx
  rw [List.mem_filter] at hx
  exact hmax x hx.1 (by simpa using hx.2)

/-- Closed instance of the amended C4: a reading with an explicit client
timestamp is stored verbatim and returned by the latest query. -/
theorem C4_rest_ingest_witness :
    Faclon.ingestReading 100 []
        [("deviceId", Faclon.JSValue.jstr "s1"),
         ("temperature", Faclon.JSValue.jnum (Faclon.JNum.num 5)),
         ("timestamp", Faclon.JSValue.jnum (Faclon.JNum.num 7))]
      = (Faclon.RestResult.response 201 true none
           (some { id := 0, deviceId := "s1",
                   temperature := Faclon.JNum.num 5,
                   timestamp := Faclon.JNum.num 7, createdAt := 100 }),
         [{ id := 0, deviceId := "s1", temperature := Faclon.JNum.num 5,
            timestamp := Faclon.JNum.num 7, createdAt := 100 }]) ∧
    Faclon.getLatestReading
        [{ id := 0, deviceId := "s1", temperature := Faclon.JNum.num 5,
           timestamp := Faclon.JNum.num 7, createdAt := 100 }] "s1"
      = Faclon.RestResult.response 200 true none
          (some { id := 0, deviceId := "s1",
                  temperature := Faclon.JNum.num 5,
                  timestamp := Faclon.JNum.num 7, createdAt := 100 }) :=
  C4_rest_ingest_then_latest 100 [] _ "s1" (Faclon.JNum.num 5)
    (Faclon.JNum.num 7) rfl (by decide) rfl (by simp)
    (Or.inr ⟨rfl, by simp⟩) (by simp)

/-- C5 counterexample: an infinite temperature on the REST path is accepted
(201) and persisted — it is not rejected with a validation error, refuting
the claim for infinite values. -/
theorem C5_counterexample :
    Faclon.ingestReading 100 []
        [("deviceId", Faclon.JSValue.jstr "s1"),
         ("temperature", Faclon.JSValue.jnum Faclon.JNum.inf)]
      = (Faclon.RestResult.response 201 true none
           (some { id := 0, deviceId := "s1",
                   temperature := Faclon.JNum.inf,
                   timestamp := Faclon.JNum.num 100, createdAt := 100 }),
         [{ id := 0, deviceId := "s1", temperature := Faclon.JNum.inf,
            timestamp := Faclon.JNum.num 100, createdAt := 100 }]) := by decide

/-- C5 amended: on the REST path, an input whose temperature is missing, not
a number value, or NaN gets a 400 validation response and leaves the store
unchanged, with no coercion; infinite values, however, pass validation and
are persisted, and the pub/sub path coerces string values with parseFloat. -/
theorem C5_rest_rejects_non_number (now : ℚ) (s : Faclon.Store)
    (b : Faclon.Body) (h : Faclon.temperatureNotANumber b) :
    (Faclon.ingestReading now s b).1.statusCode = 400 ∧
    (Faclon.ingestReading now s b).1.isSuccess = false ∧
    (Faclon.ingestReading now s b).2 = s := by
  have hzt : ∃ m, Faclon.zTemperature b = Except.error m := by
    unfold Faclon.temperatureNotANumber at h
    cases hb : Faclon.lookup b "temperature" with
    | none => exact ⟨"temperature is required", by unfold Faclon.zTemperature; rw [hb]⟩
    | some val =>
      cases val with
      | jnum n =>
        rw [hb] at h
        refine ⟨"temperature must be a number", ?_⟩
        unfold Faclon.zTemperature
        rw [hb]
        simp [h]
      | jstr s0 => exact ⟨"temperature must be a number", by unfold Faclon.zTemperature; rw [hb]⟩
      | jbool b0 => exact ⟨"temperature must be a number", by unfold Faclon.zTemperature; rw [hb]⟩
      | jnull => exact ⟨"temperature must be a number", by unfold Faclon.zTemperature; rw [hb]⟩
  obtain ⟨m, hm⟩ := hzt
  have hparse : ∃ msgs, Faclon.ingestSchemaParse now b = Except.error msgs := by
    unfold Faclon.ingestSchemaParse
    cases hzd : Faclon.zDeviceId b <;> cases hzts : Faclon.zTimestamp b now <;>
      rw [hm] <;> exact ⟨_, rfl⟩
  obtain ⟨msgs, hp⟩ := hparse
  unfold Faclon.ingestReading
  rw [hp]
  exact ⟨rfl, rfl, rfl⟩

/-- Closed instance of the amended C5: a string temperature is rejected on
the REST path with 400 and nothing stored. -/
theorem C5_rest_rejects_witness :
    (Faclon.ingestReading 100 []
        [("deviceId", Faclon.JSValue.jstr "s1"),
         ("temperature", Faclon.JSValue.jstr "hot")]).1.statusCode = 400 ∧
    (Faclon.ingestReading 100 []
        [("deviceId", Faclon.JSValue.jstr "s1"),
         ("temperature", Faclon.JSValue.jstr "hot")]).1.isSuccess = false ∧
    (Faclon.ingestReading 100 []
        [("deviceId", Faclon.JSValue.jstr "s1"),
         ("temperature", Faclon.JSValue.jstr "hot")]).2 = [] :=
  C5_rest_rejects_non_number 100 []
    [("deviceId", Faclon.JSValue.jstr "s1"),
     ("temperature", Faclon.JSValue.jstr "hot")] trivial

/-- C6: for a device whose stored readings are two records with timestamps
t1 < t2, in either persistence order, the latest-reading query returns the
record carrying t2. -/
theorem C6_latest_returns_max_timestamp (s : Faclon.Store) (d : String)
    (r1 r2 : Faclon.StoredReading) (t1 t2 : ℚ)
    (h1 : r1.timestamp = Faclon.JNum.num t1)
    (h2 : r2.timestamp = Faclon.JNum.num t2) (hlt : t1 < t2)
    (hf : s.filter (fun r => r.deviceId == d) = [r1, r2] ∨
          s.filter (fun r => r.deviceId == d) = [r2, r1]) :
    Faclon.getLatestReading s d
      = Faclon.RestResult.response 200 true none (some r2) := by
  unfold Faclon.getLatestReading Faclon.latestScan
  rcases hf with hf | hf <;> rw [hf]
  · simp [List.foldl, Faclon.maxStep, Faclon.jlt, h1, h2, hlt]
  · simp [List.foldl, Faclon.maxStep, Faclon.jlt, h1, h2, not_lt.mpr hlt.le]

/-- Closed instance of C6 at a concrete two-record store. -/
theorem C6_witness :
    Faclon.getLatestReading
      [{ id := 0, deviceId := "s1", temperature := Faclon.JNum.num 1,
         timestamp := Faclon.JNum.num 7, createdAt := 10 },
       { id := 1, deviceId := "s1", temperature := Faclon.JNum.num 2,
         timestamp := Faclon.JNum.num 3, createdAt := 20 }] "s1"
      = Faclon.RestResult.response 200 true none
          (some { id := 0, deviceId := "s1", temperature := Faclon.JNum.num 1,
                  timestamp := Faclon.JNum.num 7, createdAt := 10 }) :=
  C6_latest_returns_max_timestamp _ "s1"
    { id := 1, deviceId := "s1", temperature := Faclon.JNum.num 2,
      timestamp := Faclon.JNum.num 3, createdAt := 20 }
    { id := 0, deviceId := "s1", temperature := Faclon.JNum.num 1,
      timestamp := Faclon.JNum.num 7, createdAt := 10 }
    3 7 rfl rfl (by decide) (Or.inr (by decide))

/-- C7: with no stored reading for the requested device, the retrieval
handler answers 404 with success false, but the error message is the fixed
string, which does not contain the requested device identifier. -/
theorem C7_not_found_fixed_message :
    Faclon.getLatestReading [] "unknown"
      = Faclon.RestResult.response 404 false
          (some "No readings found for this device") none ∧
    ¬ List.IsInfix "unknown".data
        "No readings found for this device".data := by
  exact ⟨rfl, by decide⟩

/-- C8: a request body with no deviceId field, or with the empty string as
deviceId, gets a 400 validation response and the store is unchanged. -/
theorem C8_missing_or_empty_deviceId (now : ℚ) (s : Faclon.Store)
    (b : Faclon.Body)
    (h : Faclon.lookup b "deviceId" = none ∨
         Faclon.lookup b "deviceId" = some (Faclon.JSValue.jstr "")) :
    (Faclon.ingestReading now s b).1.statusCode = 400 ∧
    (Faclon.ingestReading now s b).1.isSuccess = false ∧
    (Faclon.ingestReading now s b).2 = s := by
  have hzd : ∃ m, Faclon.zDeviceId b = Except.error m := by
    rcases h with h | h
    · exact ⟨"Required", by unfold Faclon.zDeviceId; rw [h]⟩
    · exact ⟨"deviceId cannot be empty", by unfold Faclon.zDeviceId; rw [h]; simp⟩
  obtain ⟨m, hm⟩ := hzd
  have hparse : ∃ msgs, Faclon.ingestSchemaParse now b = Except.error msgs := by
    unfold Faclon.ingestSchemaParse
    cases hzt : Faclon.zTemperature b <;> cases hzts : Faclon.zTimestamp b now <;>
      rw [hm] <;> exact ⟨_, rfl⟩
  obtain ⟨msgs, hp⟩ := hparse
  unfold Faclon.ingestReading
  rw [hp]
  exact ⟨rfl, rfl, rfl⟩

/-- Closed instance of C8: a body with only a temperature gets 400 and the
store stays empty. -/
theorem C8_witness :
    (Faclon.ingestReading 100 []
        [("temperature", Faclon.JSValue.jnum (Faclon.JNum.num 5))]).1.statusCode
        = 400 ∧
    (Faclon.ingestReading 100 []
        [("temperature", Faclon.JSValue.jnum (Faclon.JNum.num 5))]).1.isSuccess
        = false ∧
    (Faclon.ingestReading 100 []
        [("temperature", Faclon.JSValue.jnum (Faclon.JNum.num 5))]).2 = [] :=
  C8_missing_or_empty_deviceId 100 []
    [("temperature", Faclon.JSValue.jnum (Faclon.JNum.num 5))] (Or.inl rfl)

/-- C9: the insert path never rejects a duplicate (deviceId, timestamp) pair:
given any stored reading, a second valid reading with the identical deviceId
and timestamp is accepted with 201 and appended as a record distinct from the
first, growing the store by one. -/
theorem C9_duplicate_timestamp_accepted (now : ℚ) (s : Faclon.Store)
    (r : Faclon.StoredReading) (v : Faclon.JNum) (hr : r ∈ s)
    (hid : r.id < s.length) (hd : 0 < r.deviceId.length)
    (hts : r.timestamp ≠ Faclon.JNum.nan) (hv : v ≠ Faclon.JNum.nan) :
    Faclon.ingestReading now s
        [("deviceId", Faclon.JSValue.jstr r.deviceId),
         ("temperature", Faclon.JSValue.jnum v),
         ("timestamp", Faclon.JSValue.jnum r.timestamp)]
      = (Faclon.RestResult.response 201 true none
           (some { id := s.length, deviceId := r.deviceId, temperature := v,
                   timestamp := r.timestamp, createdAt := now }),
         s ++ [{ id := s.length, deviceId := r.deviceId, temperature := v,
                 timestamp := r.timestamp, createdAt := now }]) ∧
    ({ id := s.length, deviceId := r.deviceId, temperature := v,
       timestamp := r.timestamp, createdAt := now } : Faclon.StoredReading)
      ≠ r ∧
    r ∈ s ++ ([{ id := s.length, deviceId := r.deviceId, temperature := v,
                 timestamp := r.timestamp, createdAt := now }] :
                Faclon.Store) ∧
    (s ++ ([{ id := s.length, deviceId := r.deviceId, temperature := v,
              timestamp := r.timestamp, createdAt := now }] :
             Faclon.Store)).length
      = s.length + 1 := by
  refine ⟨Faclon.ingestReading_ok now s _ r.deviceId v r.timestamp rfl hd rfl
      hv (Or.inr ⟨rfl, hts⟩), ?_, List.mem_append_left _ hr, by simp⟩
  intro hEq
  have hlen : s.length = r.id := congrArg Faclon.StoredReading.id hEq
  omega

/-- Closed instance of C9: a second reading for device s1 with the same
timestamp 5 as the stored one is accepted and stored as a distinct record. -/
theorem C9_witness :
    Faclon.ingestReading 20
        [{ id := 0, deviceId := "s1", temperature := Faclon.JNum.num 1,
           timestamp := Faclon.JNum.num 5, createdAt := 10 }]
        [("deviceId", Faclon.JSValue.jstr "s1"),
         ("temperature", Faclon.JSValue.jnum (Faclon.JNum.num 3)),
         ("timestamp", Faclon.JSValue.jnum (Faclon.JNum.num 5))]
      = (Faclon.RestResult.response 201 true none
           (some { id := 1, deviceId := "s1",
                   temperature := Faclon.JNum.num 3,
                   timestamp := Faclon.JNum.num 5, createdAt := 20 }),
         [{ id := 0, deviceId := "s1", temperature := Faclon.JNum.num 1,
            timestamp := Faclon.JNum.num 5, createdAt := 10 },
          { id := 1, deviceId := "s1", temperature := Faclon.JNum.num 3,
            timestamp := Faclon.JNum.num 5, createdAt := 20 }]) ∧
    ({ id := 1, deviceId := "s1", temperature := Faclon.JNum.num 3,
       timestamp := Faclon.JNum.num 5, createdAt := 20 } : Faclon.StoredReading)
      ≠ ({ id := 0, deviceId := "s1", temperature := Faclon.JNum.num 1,
           timestamp := Faclon.JNum.num 5, createdAt := 10 } :
          Faclon.StoredReading) ∧
    ({ id := 0, deviceId := "s1", temperature := Faclon.JNum.num 1,
       timestamp := Faclon.JNum.num 5, createdAt := 10 } : Faclon.StoredReading)
      ∈ (([{ id := 0, deviceId := "s1", temperature := Faclon.JNum.num 1,
             timestamp := Faclon.JNum.num 5, createdAt := 10 }] :
            Faclon.Store) ++
         ([{ id := 1, deviceId := "s1", temperature := Faclon.JNum.num 3,
             timestamp := Faclon.JNum.num 5, createdAt := 20 }] :
            Faclon.Store)) ∧
    (([{ id := 0, deviceId := "s1", temperature := Faclon.JNum.num 1,
         timestamp := Faclon.JNum.num 5, createdAt := 10 }] : Faclon.Store) ++
       ([{ id := 1, deviceId := "s1", temperature := Faclon.JNum.num 3,
           timestamp := Faclon.JNum.num 5, createdAt := 20 }] :
          Faclon.Store)).length = 1 + 1 :=
  C9_duplicate_timestamp_accepted 20
    [{ id := 0, deviceId := "s1", temperature := Faclon.JNum.num 1,
       timestamp := Faclon.JNum.num 5, createdAt := 10 }]
    { id := 0, deviceId := "s1", temperature := Faclon.JNum.num 1,
      timestamp := Faclon.JNum.num 5, createdAt := 10 }
    (Faclon.JNum.num 3) (by decide) (by decide) (by decide) (by decide)
    (by decide)

/-- C10: a REST body extended with an additional field under any key other
than the three schema keys is treated exactly as the body without it — the
unknown field is stripped by validation, never stored, and never an error. -/
theorem C10_unknown_fields_ignored (now : ℚ) (s : Faclon.Store)
    (b : Faclon.Body) (k : String) (w : Faclon.JSValue)
    (h1 : k ≠ "deviceId") (h2 : k ≠ "temperature") (h3 : k ≠ "timestamp") :
    Faclon.ingestReading now s (b ++ [(k, w)]) = Faclon.ingestReading now s b := by
  have e1 : Faclon.zDeviceId (b ++ [(k, w)]) = Faclon.zDeviceId b := by
    unfold Faclon.zDeviceId
    rw [Faclon.lookup_append_ne b k "deviceId" w h1]
  have e2 : Faclon.zTemperature (b ++ [(k, w)]) = Faclon.zTemperature b := by
    unfold Faclon.zTemperature
    rw [Faclon.lookup_append_ne b k "temperature" w h2]
  have e3 : Faclon.zTimestamp (b ++ [(k, w)]) now = Faclon.zTimestamp b now := by
    unfold Faclon.zTimestamp
    rw [Faclon.lookup_append_ne b k "timestamp" w h3]
  have ep : Faclon.ingestSchemaParse now (b ++ [(k, w)])
      = Faclon.ingestSchemaParse now b := by
    unfold Faclon.ingestSchemaParse
    rw [e1, e2, e3]
  unfold Faclon.ingestReading
  rw [ep]

/-- Closed instance of C10: adding an unknown extra field changes nothing. -/
theorem C10_witness :
    Faclon.ingestReading 100 []
        ([("deviceId", Faclon.JSValue.jstr "s1"),
          ("temperature", Faclon.JSValue.jnum (Faclon.JNum.num 5))] ++
         [("extra", Faclon.JSValue.jstr "x")])
      = Faclon.ingestReading 100 []
          [("deviceId", Faclon.JSValue.jstr "s1"),
           ("temperature", Faclon.JSValue.jnum (Faclon.JNum.num 5))] :=
  C10_unknown_fields_ignored 100 []
    [("deviceId", Faclon.JSValue.jstr "s1"),
     ("temperature", Faclon.JSValue.jnum (Faclon.JNum.num 5))]
    "extra" (Faclon.JSValue.jstr "x") (by decide) (by decide) (by decide)
